import Mathlib

/-!
Shallow embedding of `msgtrace/sdk/events.py`: span-event emission with
dual output (persistence via the active span, streaming via a scoped
queue), and the `EventStream` scoped subscriber.

Modelling choices:
- Python attribute values (`Any`, restricted to JSON-representable data)
  become the inductive `AttrValue`; `json.dumps` with its default options
  (`ensure_ascii=True`, separators `", "` and `": "`) becomes `jsonDumps`.
- The `asyncio.Queue` with the `None` sentinel becomes a
  `List (Option StreamEvent)`; `none` is the sentinel.
- The contextvar `_event_queue` becomes an `Option Nat` slot holding the
  identifier of the active queue, with `ContextVar.set` returning the old
  value as its token and `reset` restoring it, as in `contextvars`.
- The drain loop `EventStream.__aiter__` becomes `drainQ` (plain),
  `drainState` (with stateful callbacks), `drainE` (with fallible
  callbacks) and `drainActions` (with an explicit action trace): blocking
  forever on a queue with no sentinel is modelled as the `none` result.
-/

namespace MsgTrace

/-- JSON-representable Python attribute values as passed to `add_event`:
scalars (`str`, `int`, `bool`, `None`) plus nested `list` and `dict`. -/
inductive AttrValue where
  | vStr : String → AttrValue
  | vInt : Int → AttrValue
  | vBool : Bool → AttrValue
  | vNone : AttrValue
  | vList : List AttrValue → AttrValue
  | vDict : List (String × AttrValue) → AttrValue
deriving Repr

/-- `isinstance(value, (dict, list))`: the test `add_event` uses to decide
whether a value is serialized before being recorded on the span. -/
def isComplex : AttrValue → Bool
  | .vList _ => true
  | .vDict _ => true
  | _ => false

/-- Hex digit character, lowercase, as produced by Python formatting. -/
def hexDigitChar (n : Nat) : Char :=
  if n < 10 then Char.ofNat (48 + n) else Char.ofNat (87 + n)

/-- A `\uXXXX` escape for a code unit below `0x10000`. -/
def ucode4 (n : Nat) : String :=
  "\\u" ++ String.mk [hexDigitChar (n / 4096 % 16), hexDigitChar (n / 256 % 16),
    hexDigitChar (n / 16 % 16), hexDigitChar (n % 16)]

/-- Escaping of one character inside a JSON string literal, following
`json.dumps` defaults (`ensure_ascii=True`): named escapes for the common
control characters, `\uXXXX` (with surrogate pairs above the BMP) for other
control and non-ASCII characters, everything else verbatim. -/
def escapeChar (c : Char) : String :=
  if c = '"' then "\\\""
  else if c = '\\' then "\\\\"
  else if c = '\n' then "\\n"
  else if c = '\r' then "\\r"
  else if c = '\t' then "\\t"
  else if c.toNat = 8 then "\\b"
  else if c.toNat = 12 then "\\f"
  else if c.toNat < 32 || 126 < c.toNat then
    if c.toNat < 65536 then ucode4 c.toNat
    else
      let v := c.toNat - 65536
      ucode4 (55296 + v / 1024) ++ ucode4 (56320 + v % 1024)
  else String.singleton c

/-- JSON encoding of a string (quotes plus per-character escaping). -/
def jsonString (s : String) : String :=
  "\"" ++ String.join (s.data.map escapeChar) ++ "\""

mutual

/-- `json.dumps(value)` with default options: `", "` between items,
`": "` between a key and its value, `true` / `false` / `null` for the
scalar constants. -/
def jsonDumps : AttrValue → String
  | .vStr s => jsonString s
  | .vInt i => toString i
  | .vBool true => "true"
  | .vBool false => "false"
  | .vNone => "null"
  | .vList xs => "[" ++ jsonDumpsList xs ++ "]"
  | .vDict kvs => "\x7b" ++ jsonDumpsDict kvs ++ "\x7d"

/-- Comma-separated encoding of a JSON array body. -/
def jsonDumpsList : List AttrValue → String
  | [] => ""
  | [x] => jsonDumps x
  | x :: y :: rest => jsonDumps x ++ ", " ++ jsonDumpsList (y :: rest)

/-- Comma-separated encoding of a JSON object body. -/
def jsonDumpsDict : List (String × AttrValue) → String
  | [] => ""
  | [kv] => jsonString kv.1 ++ ": " ++ jsonDumps kv.2
  | kv :: kv2 :: rest =>
      jsonString kv.1 ++ ": " ++ jsonDumps kv.2 ++ ", " ++ jsonDumpsDict (kv2 :: rest)

end

/-- The per-value serialization step of `add_event`
(events.py lines 133-138): nested `dict` / `list` values are replaced by
their JSON text, every other value passes through unchanged. -/
def serializeValue (v : AttrValue) : AttrValue :=
  if isComplex v then .vStr (jsonDumps v) else v

/-- The `serialized_attrs` dictionary built by `add_event`. -/
def serializedAttrs (attrs : List (String × AttrValue)) : List (String × AttrValue) :=
  attrs.map (fun kv => (kv.1, serializeValue kv.2))

/-- Unpadded lowercase hex digits of `n`, most significant first
(empty for `0`), as Python's `format(n, "x")` produces before padding. -/
def hexChars (n : Nat) : List Char :=
  if h : n = 0 then []
  else
    have : n / 16 < n := Nat.div_lt_self (Nat.pos_of_ne_zero h) (by omega)
    hexChars (n / 16) ++ [hexDigitChar (n % 16)]

/-- Python's `format(n, "0<width>x")`: lowercase hex, left-padded with
zeros to at least `width` characters (`format(0, "x")` is `"0"`, so the
all-zero padding covers `n = 0`). -/
def formatHex (width n : Nat) : String :=
  let ds := hexChars n
  String.mk (List.replicate (width - max ds.length 1) '0'
    ++ (if ds.isEmpty then ['0'] else ds))

/-- The `StreamEvent` frozen dataclass (events.py lines 69-88). -/
structure StreamEvent where
  name : String
  attributes : List (String × AttrValue)
  timestamp_ns : Nat
  span_name : String := ""
  span_id : String := ""
  trace_id : String := ""
deriving Repr

/-- The facts `add_event` reads from the external span collaborator:
whether it is recording, its name, and its span context identifiers
(`trace_id` 128-bit, `span_id` 64-bit). -/
structure Span where
  recording : Bool
  name : String
  spanId : Nat
  traceId : Nat
deriving Repr

/-- State visible to the sink: the resolved current span, the events so
far recorded on that span via `span.add_event`, and the contents of the
subscription channel from `_event_queue` (`none` when no stream is
active; the queue holds `Option StreamEvent`, `none` being the `None`
sentinel). -/
structure SinkState where
  span : Span
  spanEvents : List (String × List (String × AttrValue))
  queue : Option (List (Option StreamEvent))
deriving Repr

/-- The `StreamEvent` that `add_event` constructs for the streaming path
(events.py lines 147-155): original unserialized attributes, a fresh
timestamp, and span correlation fields that are empty strings unless the
span is recording. -/
def streamedEvent (name : String) (attrs : List (String × AttrValue)) (ts : Nat)
    (sp : Span) : StreamEvent :=
  { name := name
    attributes := attrs
    timestamp_ns := ts
    span_name := if sp.recording then sp.name else ""
    span_id := if sp.recording then formatHex 16 sp.spanId else ""
    trace_id := if sp.recording then formatHex 32 sp.traceId else "" }

/-- `add_event(name, attributes)` (events.py lines 105-156): serialize
nested values, record `(name, serialized_attrs)` on the span when it is
recording, and—only when a subscription channel is active—construct a
`StreamEvent` from the original attributes and enqueue it. The second
component reports the `StreamEvent` constructed for streaming (`none`
when the streaming step was skipped). `ts` stands for `time.time_ns()`. -/
def add_event (name : String) (attrs : List (String × AttrValue)) (ts : Nat)
    (s : SinkState) : SinkState × Option StreamEvent :=
  let serialized := serializedAttrs attrs
  let spanEvents1 :=
    if s.span.recording then s.spanEvents ++ [(name, serialized)] else s.spanEvents
  match s.queue with
  | none => ({ s with spanEvents := spanEvents1 }, none)
  | some q =>
      let event := streamedEvent name attrs ts s.span
      ({ s with spanEvents := spanEvents1, queue := some (q ++ [some event]) }, some event)

/-- `EventStream.close()` (events.py lines 330-332): enqueue the `None`
sentinel into the stream's own queue; never fails. -/
def close (q : List (Option StreamEvent)) : List (Option StreamEvent) :=
  q ++ [none]

/-- The drain loop `EventStream.__aiter__` (events.py lines 334-342)
without callbacks: repeatedly take the next queue item, stop without
yielding on the sentinel, otherwise yield the event. A queue exhausted
before any sentinel means the loop blocks forever on `await get()`,
modelled as the `none` result. -/
def drainQ : List (Option StreamEvent) → Option (List StreamEvent)
  | [] => none
  | none :: _ => some []
  | some e :: rest => (drainQ rest).map (fun ys => e :: ys)

/-- The `for callback in self._callbacks: callback(event)` loop of the
drain, for callbacks that each transform a shared state: the registered
callbacks run left to right (registration order) on each event. -/
def runCallbacks {σ : Type} (cbs : List (StreamEvent → σ → σ)) (e : StreamEvent)
    (st : σ) : σ :=
  cbs.foldl (fun acc cb => cb e acc) st

/-- The drain loop with stateful callbacks: on each non-sentinel event,
first every registered callback runs in registration order, then the
event is yielded. Returns the final callback state together with the
yielded sequence; `none` models blocking forever on a sentinel-free
queue. -/
def drainState {σ : Type} (cbs : List (StreamEvent → σ → σ)) :
    List (Option StreamEvent) → σ → Option (σ × List StreamEvent)
  | [], _ => none
  | none :: _, st => some (st, [])
  | some e :: rest, st =>
      (drainState cbs rest (runCallbacks cbs e st)).map
        (fun r => (r.1, e :: r.2))

/-- The callback loop for fallible callbacks: the first callback that
raises aborts the loop with its error (no isolation, remaining callbacks
do not run). -/
def runCallbacksE (cbs : List (StreamEvent → Except String Unit))
    (e : StreamEvent) : Except String Unit :=
  match cbs with
  | [] => .ok ()
  | cb :: rest =>
      match cb e with
      | .error err => .error err
      | .ok _ => runCallbacksE rest e

/-- The drain loop with fallible callbacks: a callback's exception
propagates as the failure of the drain itself, terminating the
iteration. `none` again models blocking forever. -/
def drainE (cbs : List (StreamEvent → Except String Unit)) :
    List (Option StreamEvent) → Option (Except String (List StreamEvent))
  | [] => none
  | none :: _ => some (.ok [])
  | some e :: rest =>
      match runCallbacksE cbs e with
      | .error err => some (.error err)
      | .ok _ => (drainE cbs rest).map (fun r => r.map (fun ys => e :: ys))

/-- One observable action of the drain loop: callback number `i` invoked
with an event, or an event yielded to the consumer. -/
inductive DrainAction where
  | invoke : Nat → StreamEvent → DrainAction
  | yielded : StreamEvent → DrainAction
deriving Repr

/-- The drain loop instrumented with its action trace, for a stream with
`ncb` registered callbacks: per delivered event, invocations
`0, 1, …, ncb-1` in registration order followed by the yield. -/
def drainActions (ncb : Nat) : List (Option StreamEvent) → Option (List DrainAction)
  | [] => none
  | none :: _ => some []
  | some e :: rest =>
      (drainActions ncb rest).map
        (fun tr => (List.range ncb).map (fun i => DrainAction.invoke i e)
          ++ [DrainAction.yielded e] ++ tr)

/-- The `events` property (events.py lines 344-356): the synchronous
`while not empty: get_nowait` loop with its `collected` accumulator,
appending every non-sentinel item and silently dropping sentinels.
Returns the remaining queue (always emptied by the loop) with the
collected list. -/
def eventsLoop : List (Option StreamEvent) → List StreamEvent →
    List (Option StreamEvent) × List StreamEvent
  | [], collected => ([], collected)
  | none :: rest, collected => eventsLoop rest collected
  | some e :: rest, collected => eventsLoop rest (collected ++ [e])

/-- The `events` property entry point: start with an empty `collected`. -/
def eventsProperty (q : List (Option StreamEvent)) :
    List (Option StreamEvent) × List StreamEvent :=
  eventsLoop q []

/-! ### The scoped context slot and `EventStream` lifecycle

The contextvar `_event_queue` holds a reference to the active queue; we
model references as `Nat` identifiers into a store of queues. A
`ContextVar.Token` remembers the value the slot had before `set`. -/

/-- The value of `_event_queue`: the identifier of the active queue, or
`none` when no stream is active. -/
def Slot := Option Nat
deriving Repr, DecidableEq

/-- A store mapping queue identifiers to queue contents. -/
def Store := Nat → List (Option StreamEvent)

/-- `_event_queue.set(q)`: install `q` and return the token carrying the
previous value. -/
def cvSet (slot : Slot) (q : Nat) : Slot × Slot :=
  (some q, slot)

/-- `_event_queue.reset(token)`: restore the value saved in the token. -/
def cvReset (token : Slot) : Slot :=
  token

/-- Enqueue one item into queue `qid` of the store
(`queue.put_nowait`, non-blocking since the queue is unbounded). -/
def enqueue (st : Store) (qid : Nat) (x : Option StreamEvent) : Store :=
  fun i => if i = qid then st i ++ [x] else st i

/-- The streaming step of `add_event` against the scoped slot: when no
channel is active nothing happens; otherwise the event is enqueued into
the active queue. -/
def emitOp (slot : Slot) (st : Store) (e : StreamEvent) : Store :=
  match slot with
  | none => st
  | some qid => enqueue st qid (some e)

/-- A sequence of emissions under a fixed slot value. -/
def emitAll (slot : Slot) (st : Store) (es : List StreamEvent) : Store :=
  es.foldl (emitOp slot) st

/-- The state of one `EventStream` object: the slot value of
`_event_queue`, the `_token` field (`none` until the stream is entered),
and the contents of `self._queue`. -/
structure ESState where
  slot : Slot
  token : Option Slot
  queue : List (Option StreamEvent)

/-- `EventStream.__aenter__` / `__enter__` (identical bodies): set the
contextvar to the stream's own queue (identified here by `qid`) and store
the token. -/
def esEnter (s : ESState) (qid : Nat) : ESState :=
  let (slot1, tok) := cvSet s.slot qid
  { s with slot := slot1, token := some tok }

/-- `EventStream.__aexit__` (events.py lines 316-320): if a token was
stored, reset the contextvar to it; then always enqueue the `None`
sentinel into the stream's own queue. The `exc` argument mirrors `*exc`:
the exception information is ignored, so exit acts the same whether
reached normally or by an exception unwinding through the scope. -/
def esAexit (s : ESState) (exc : Option String) : ESState :=
  let _ := exc
  let slot1 := match s.token with
    | none => s.slot
    | some tok => cvReset tok
  { s with slot := slot1, queue := s.queue ++ [none] }

/-- `EventStream.__exit__` (events.py lines 326-328): if a token was
stored, reset the contextvar to it. Nothing is enqueued: the synchronous
exit does not signal end of stream. `exc` is again ignored. -/
def esExit (s : ESState) (exc : Option String) : ESState :=
  let _ := exc
  let slot1 := match s.token with
    | none => s.slot
    | some tok => cvReset tok
  { s with slot := slot1 }

/-- A producer performing a sequence of `add_event` calls
(name, attributes, timestamp) through the sink, in order. -/
def emitMany : List (String × List (String × AttrValue) × Nat) → SinkState → SinkState
  | [], s => s
  | c :: rest, s => emitMany rest (add_event c.1 c.2.1 c.2.2 s).1

/-- The queues of the two streams after a nested-stream run. -/
structure NestedResult where
  outerQ : List (Option StreamEvent)
  innerQ : List (Option StreamEvent)

/-- A nested-stream run, straight from the `EventStream` protocol: enter
an outer stream (queue `0`), emit `es1`; enter an inner stream (queue
`1`), emit `es2`; exit the inner stream (context reset to its token,
sentinel into queue `1`), emit `es3`; exit the outer stream likewise.
Every emission goes to the queue named by the slot at that moment. -/
def nestedScenario (es1 es2 es3 : List StreamEvent) : NestedResult :=
  let slot0 : Slot := none
  let st0 : Store := fun _ => []
  let (slot1, tokOuter) := cvSet slot0 0
  let st1 := emitAll slot1 st0 es1
  let (slot2, tokInner) := cvSet slot1 1
  let st2 := emitAll slot2 st1 es2
  let slot3 := cvReset tokInner
  let st3 := enqueue st2 1 none
  let st4 := emitAll slot3 st3 es3
  let slot4 := cvReset tokOuter
  let _ := slot4
  let st5 := enqueue st4 0 none
  { outerQ := st5 0, innerQ := st5 1 }

/-! ### Helper lemmas -/

/-- Draining a queue of events followed by a sentinel yields exactly the
events, whatever lies beyond the sentinel. -/
lemma drainQ_events (es : List StreamEvent) (tail : List (Option StreamEvent)) :
    drainQ (es.map some ++ none :: tail) = some es := by
  induction es with
  | nil => rfl
  | cons e es ih => simp [drainQ, ih]

/-- Emitting while no channel is active leaves every queue untouched. -/
lemma emitAll_none (st : Store) (es : List StreamEvent) :
    emitAll none st es = st := by
  induction es generalizing st with
  | nil => rfl
  | cons e es ih => simpa [emitAll, emitOp] using ih st

/-- Emitting while queue `q` is active appends the events to queue `q`
and leaves every other queue untouched. -/
lemma emitAll_some_apply (q : Nat) (st : Store) (es : List StreamEvent) (i : Nat) :
    emitAll (some q) st es i = if i = q then st i ++ es.map some else st i := by
  induction es generalizing st with
  | nil => simp [emitAll]
  | cons e es ih =>
      simp only [emitAll, List.foldl_cons, emitOp] at *
      rw [ih]
      by_cases h : i = q <;> simp [enqueue, h]

/-- `add_event` never changes the resolved span. -/
lemma add_event_span (n : String) (a : List (String × AttrValue)) (t : Nat)
    (s : SinkState) : ((add_event n a t s).1).span = s.span := by
  cases s with
  | mk sp evts q => cases q <;> rfl

/-- The queue after a producer's `emitMany` run on an active channel:
the streamed events, in call order, appended to the prior contents. -/
lemma emitMany_queue (calls : List (String × List (String × AttrValue) × Nat))
    (sp : Span) (evts : List (String × List (String × AttrValue)))
    (q : List (Option StreamEvent)) :
    (emitMany calls ⟨sp, evts, some q⟩).queue =
      some (q ++ (calls.map (fun c => streamedEvent c.1 c.2.1 c.2.2 sp)).map some) := by
  induction calls generalizing evts q with
  | nil => simp [emitMany]
  | cons c rest ih =>
      simp only [emitMany, add_event, List.map_cons, List.map_append]
      rw [ih]
      simp

/-- The synchronous collection loop empties the queue and accumulates
exactly the non-sentinel items in FIFO order. -/
lemma eventsLoop_eq (q : List (Option StreamEvent)) (acc : List StreamEvent) :
    eventsLoop q acc = ([], acc ++ q.filterMap id) := by
  induction q generalizing acc with
  | nil => simp [eventsLoop]
  | cons x rest ih =>
      cases x with
      | none => simp [eventsLoop, ih]
      | some e => simp [eventsLoop, ih]

/-- Draining with a single list-appending callback: the callback's list
grows by exactly the yielded sequence, in order. -/
lemma drainState_append (es : List StreamEvent) (acc : List StreamEvent) :
    drainState [fun e l => l ++ [e]] (es.map some ++ [none]) acc =
      some (acc ++ es, es) := by
  induction es generalizing acc with
  | nil => simp [drainState]
  | cons e es ih => simp [drainState, runCallbacks, ih]

/-- The instrumented drain trace over a closed queue: per event, the
`ncb` callback invocations in registration order, then the yield. -/
lemma drainActions_eq (ncb : Nat) (es : List StreamEvent) :
    drainActions ncb (es.map some ++ [none]) =
      some (es.flatMap (fun e =>
        (List.range ncb).map (fun i => DrainAction.invoke i e)
          ++ [DrainAction.yielded e])) := by
  induction es with
  | nil => simp [drainActions]
  | cons e es ih => simp [drainActions, ih]

/-- A number below `16 ^ k` has at most `k` hex digits. -/
lemma hexChars_length_le (k : Nat) : ∀ n, n < 16 ^ k → (hexChars n).length ≤ k := by
  induction k with
  | zero =>
      intro n hn
      have : n = 0 := by simpa using hn
      subst this
      rw [hexChars]
      simp
  | succ k ih =>
      intro n hn
      by_cases h : n = 0
      · subst h
        rw [hexChars]
        simp
      · rw [hexChars]
        simp only [h, dite_false, List.length_append, List.length_cons,
          List.length_nil]
        have hdiv : n / 16 < 16 ^ k := by
          rw [Nat.div_lt_iff_lt_mul (by omega)]
          calc n < 16 ^ (k + 1) := hn
            _ = 16 ^ k * 16 := by ring
        have := ih (n / 16) hdiv
        omega

/-- Zero-padded hex formatting yields exactly `width` characters when
the unpadded digits fit in `width` (and `width` is positive). -/
lemma formatHex_length (w n : Nat) (hw : 1 ≤ w)
    (hn : (hexChars n).length ≤ w) : (formatHex w n).length = w := by
  unfold formatHex
  by_cases h : (hexChars n).isEmpty
  · have h0 : hexChars n = [] := by simpa [List.isEmpty_iff] using h
    simp [String.length, h, h0]
    omega
  · have h0 : hexChars n ≠ [] := by simpa [List.isEmpty_iff] using h
    have h1 : 1 ≤ (hexChars n).length := by
      cases hx : hexChars n with
      | nil => exact absurd hx h0
      | cons a l => simp
    simp [String.length, h]
    omega

/-! ### Claim theorems -/

/-- C1: for every `emit(name, attributes)` with an active stream, the
value recorded to persistence (`span.add_event`) for each nested
mapping/sequence value is its JSON text while scalars pass through
unchanged, and the event enqueued for the stream carries the original,
unserialized attributes. -/
theorem C1_dual_representation (name : String) (attrs : List (String × AttrValue))
    (ts : Nat) (evts : List (String × List (String × AttrValue)))
    (q : List (Option StreamEvent)) (nm : String) (sid tid : Nat) :
    add_event name attrs ts ⟨⟨true, nm, sid, tid⟩, evts, some q⟩ =
      (⟨⟨true, nm, sid, tid⟩, evts ++ [(name, serializedAttrs attrs)],
        some (q ++ [some (streamedEvent name attrs ts ⟨true, nm, sid, tid⟩)])⟩,
       some (streamedEvent name attrs ts ⟨true, nm, sid, tid⟩))
    ∧ (streamedEvent name attrs ts ⟨true, nm, sid, tid⟩).attributes = attrs
    ∧ (∀ xs, serializeValue (.vList xs) = .vStr (jsonDumps (.vList xs)))
    ∧ (∀ kvs, serializeValue (.vDict kvs) = .vStr (jsonDumps (.vDict kvs)))
    ∧ (∀ s, serializeValue (.vStr s) = .vStr s)
    ∧ (∀ i, serializeValue (.vInt i) = .vInt i)
    ∧ (∀ b, serializeValue (.vBool b) = .vBool b)
    ∧ serializeValue .vNone = .vNone := by
  refine ⟨rfl, rfl, fun xs => rfl, fun kvs => rfl, fun s => rfl,
    fun i => rfl, fun b => ?_, rfl⟩
  cases b <;> rfl

/-- C2: a single producer emitting `e1..en` into an active stream and
then closing it produces a drain sequence of exactly the streamed events
in emission order, terminating at the sentinel without yielding it; in
general a queue of events followed by the sentinel drains to exactly
those events. -/
theorem C2_fifo_drain (calls : List (String × List (String × AttrValue) × Nat))
    (sp : Span) (evts : List (String × List (String × AttrValue))) :
    drainQ (close ((emitMany calls ⟨sp, evts, some []⟩).queue.getD []))
      = some (calls.map (fun c => streamedEvent c.1 c.2.1 c.2.2 sp))
    ∧ ∀ es : List StreamEvent, drainQ (es.map some ++ [none]) = some es := by
  constructor
  · rw [emitMany_queue]
    simpa [close] using
      drainQ_events (calls.map (fun c => streamedEvent c.1 c.2.1 c.2.2 sp)) []
  · exact fun es => drainQ_events es []

/-- C3 counterexample: the synchronous `__exit__` of an entered stream
does not enqueue the termination sentinel into the stream's own channel
— the queue stays empty instead of gaining the sentinel. -/
theorem C3_counterexample :
    (esExit ⟨some 5, some none, []⟩ none).queue ≠ close [] := by
  simp [esExit, close]

/-- C3 amended: on exit of an entered stream, both the synchronous and
asynchronous forms restore the previously active channel from the stored
token (normal or exceptional exit alike, the exception information being
ignored); the asynchronous `__aexit__` additionally enqueues the
termination sentinel into the stream's own channel, while the
synchronous `__exit__` enqueues nothing. -/
theorem C3_exit_restores (slot prev : Slot) (q : List (Option StreamEvent))
    (exc : Option String) :
    (esAexit ⟨slot, some prev, q⟩ exc).slot = prev
    ∧ (esAexit ⟨slot, some prev, q⟩ exc).queue = close q
    ∧ (esExit ⟨slot, some prev, q⟩ exc).slot = prev
    ∧ (esExit ⟨slot, some prev, q⟩ exc).queue = q :=
  ⟨rfl, rfl, rfl, rfl⟩

/-- C4: while no stream is active (the scoped slot holds no channel), any
sequence of emissions leaves every queue untouched, and the sink — a
total function on attribute values — returns with the channel slot still
empty, raising nothing. -/
theorem C4_no_active_stream (st : Store) (es : List StreamEvent)
    (name : String) (attrs : List (String × AttrValue)) (ts : Nat)
    (sp : Span) (evts : List (String × List (String × AttrValue))) :
    emitAll none st es = st
    ∧ ((add_event name attrs ts ⟨sp, evts, none⟩).1).queue = none :=
  ⟨emitAll_none st es, rfl⟩

/-- C5: an emission with no active subscription channel skips the
streaming step entirely: no `StreamEvent` is constructed (the streamed
component is `none`) and the resulting state differs only by the span
write — no enqueue happens. -/
theorem C5_streaming_step_skipped (name : String) (attrs : List (String × AttrValue))
    (ts : Nat) (sp : Span) (evts : List (String × List (String × AttrValue))) :
    (add_event name attrs ts ⟨sp, evts, none⟩).2 = none
    ∧ (add_event name attrs ts ⟨sp, evts, none⟩).1 =
        ⟨sp, if sp.recording then evts ++ [(name, serializedAttrs attrs)] else evts,
          none⟩ :=
  ⟨rfl, rfl⟩

/-- C6: over a full drain of a closed queue, a list-appending callback
accumulates exactly the yielded sequence; with `ncb` registered
callbacks the drain's action trace runs, per event, the callbacks
`0..ncb-1` in registration order and then yields; and a callback that
raises makes the drain itself fail (no isolation). -/
theorem C6_callbacks (es : List StreamEvent) (ncb : Nat) (e : StreamEvent)
    (rest : List (Option StreamEvent)) :
    drainState [fun ev l => l ++ [ev]] (es.map some ++ [none]) ([] : List StreamEvent)
      = some (es, es)
    ∧ drainActions ncb (es.map some ++ [none])
      = some (es.flatMap (fun ev =>
          (List.range ncb).map (fun i => DrainAction.invoke i ev)
            ++ [DrainAction.yielded ev]))
    ∧ drainE [fun _ => .error "boom"] (some e :: rest) = some (.error "boom") :=
  ⟨by simpa using drainState_append es [], drainActions_eq ncb es, rfl⟩

/-- The inner stream's queue after the nested run holds exactly the
events emitted while the inner stream was active, then its sentinel. -/
lemma nestedScenario_innerQ (es1 es2 es3 : List StreamEvent) :
    (nestedScenario es1 es2 es3).innerQ = es2.map some ++ [none] := by
  simp [nestedScenario, cvSet, cvReset, enqueue, emitAll_some_apply]

/-- The outer stream's queue after the nested run holds exactly the
events emitted while the outer stream was the active channel (before
entering and after exiting the inner stream), then its sentinel. -/
lemma nestedScenario_outerQ (es1 es2 es3 : List StreamEvent) :
    (nestedScenario es1 es2 es3).outerQ = (es1 ++ es3).map some ++ [none] := by
  simp [nestedScenario, cvSet, cvReset, enqueue, emitAll_some_apply]

/-- C7: nested streams are isolated — the inner drain yields exactly the
events emitted during the inner extent, the outer drain exactly those
emitted before entry plus after exit of the inner stream, and an event
occurring only on one side never appears in the other stream's queue. -/
theorem C7_nested_isolation (es1 es2 es3 : List StreamEvent) :
    drainQ (nestedScenario es1 es2 es3).innerQ = some es2
    ∧ drainQ (nestedScenario es1 es2 es3).outerQ = some (es1 ++ es3)
    ∧ (∀ e, e ∈ es1 ++ es3 → e ∉ es2 →
        some e ∉ (nestedScenario es1 es2 es3).innerQ)
    ∧ (∀ e, e ∈ es2 → e ∉ es1 ++ es3 →
        some e ∉ (nestedScenario es1 es2 es3).outerQ) := by
  refine ⟨?_, ?_, ?_, ?_⟩
  · rw [nestedScenario_innerQ]
    exact drainQ_events es2 []
  · rw [nestedScenario_outerQ]
    exact drainQ_events (es1 ++ es3) []
  · intro e _ h2
    rw [nestedScenario_innerQ]
    simp [h2]
  · intro e _ h2
    rw [nestedScenario_outerQ]
    simp only [List.mem_append, List.mem_map, List.mem_singleton] at h2 ⊢
    rintro (⟨x, hx, hxe⟩ | hno)
    · exact h2 (Option.some.inj hxe ▸ hx)
    · exact Option.noConfusion hno

/-- C7 witness: in a concrete nested run with one outer event and one
inner event, the outer event is absent from the inner stream's queue. -/
theorem C7_witness :
    some (⟨"a", [], 1, "", "", ""⟩ : StreamEvent) ∉
      (nestedScenario [⟨"a", [], 1, "", "", ""⟩] [⟨"b", [], 2, "", "", ""⟩]
        []).innerQ :=
  (C7_nested_isolation _ _ _).2.2.1 _ (by simp)
    (by simp [StreamEvent.mk.injEq])

/-- C8: the streamed event of an emission under a recording span carries
the span's name, the 16-hex-character (64-bit) encoding of the span id
and the 32-hex-character (128-bit) encoding of the trace id; under a
non-recording span all three correlation fields are empty strings. -/
theorem C8_correlation_identifiers (name : String)
    (attrs : List (String × AttrValue)) (ts : Nat) (nm : String) (sid tid : Nat) :
    (streamedEvent name attrs ts ⟨true, nm, sid, tid⟩).span_name = nm
    ∧ (streamedEvent name attrs ts ⟨true, nm, sid, tid⟩).span_id = formatHex 16 sid
    ∧ (streamedEvent name attrs ts ⟨true, nm, sid, tid⟩).trace_id = formatHex 32 tid
    ∧ (sid < 2 ^ 64 →
        (streamedEvent name attrs ts ⟨true, nm, sid, tid⟩).span_id.length = 16)
    ∧ (tid < 2 ^ 128 →
        (streamedEvent name attrs ts ⟨true, nm, sid, tid⟩).trace_id.length = 32)
    ∧ (streamedEvent name attrs ts ⟨false, nm, sid, tid⟩).span_name = ""
    ∧ (streamedEvent name attrs ts ⟨false, nm, sid, tid⟩).span_id = ""
    ∧ (streamedEvent name attrs ts ⟨false, nm, sid, tid⟩).trace_id = "" := by
  refine ⟨rfl, rfl, rfl, ?_, ?_, rfl, rfl, rfl⟩
  · intro h
    have hb : sid < 16 ^ 16 := by
      calc sid < 2 ^ 64 := h
        _ = 16 ^ 16 := by norm_num
    exact formatHex_length 16 sid (by omega) (hexChars_length_le 16 sid hb)
  · intro h
    have hb : tid < 16 ^ 32 := by
      calc tid < 2 ^ 128 := h
        _ = 16 ^ 32 := by norm_num
    exact formatHex_length 32 tid (by omega) (hexChars_length_le 32 tid hb)

/-- C8 witness: concrete 64-bit and 128-bit identifiers produce hex
encodings of exactly 16 and 32 characters. -/
theorem C8_witness :
    1 < 2 ^ 64
    ∧ (streamedEvent "n" [] 0 ⟨true, "s", 1, 1⟩).span_id.length = 16
    ∧ 1 < 2 ^ 128
    ∧ (streamedEvent "n" [] 0 ⟨true, "s", 1, 1⟩).trace_id.length = 32 :=
  ⟨by norm_num,
   (C8_correlation_identifiers "n" [] 0 "s" 1 1).2.2.2.1 (by norm_num),
   by norm_num,
   (C8_correlation_identifiers "n" [] 0 "s" 1 1).2.2.2.2.1 (by norm_num)⟩

/-- C9: `close` never fails and only appends the sentinel, so closing
twice appends two sentinels; a stream closed with no prior emissions
drains to the empty sequence and terminates, as does a twice-closed one
(the drain stops at the first sentinel). -/
theorem C9_close_safety (q : List (Option StreamEvent)) :
    close (close q) = q ++ [none, none]
    ∧ drainQ (close []) = some []
    ∧ drainQ (close (close [])) = some [] :=
  ⟨by simp [close], rfl, rfl⟩

/-- C10: the synchronous `events` property removes every buffered item,
returning exactly the non-sentinel events in FIFO order and silently
discarding sentinels; it leaves the queue empty, so a subsequent drain
of the same stream blocks until a new sentinel is enqueued. -/
theorem C10_events_snapshot (q : List (Option StreamEvent)) :
    eventsProperty q = ([], q.filterMap id)
    ∧ drainQ (eventsProperty q).1 = none := by
  have h := eventsLoop_eq q []
  refine ⟨by simpa [eventsProperty] using h, ?_⟩
  rw [show (eventsProperty q).1 = [] by simp [eventsProperty, h]]
  rfl

end MsgTrace







